import Mathlib

/-!
Verification of the SQL migration module of lldap
(src/server/src/domain/sql_migrations.rs).

The database is modelled as an explicit state: each of the four tables
(Users, Groups, Memberships, Metadata) is `Option`-present, Users and
Groups additionally record whether the columns that the migration probes
(creation_date on Groups, uuid on Users and Groups) exist. Timestamps are
naturals, byte blobs are lists of naturals. The migration step
`upgrade_to_v1` becomes a pure state transformer plus an explicit model of
its final assertion; `get_schema_version` and `migrate_from_version` are
translated directly.

Since group_id (resp. user_id) is the table's primary key, the source's
per-row UPDATE keyed by that id during the uuid backfill touches exactly
the row it was read from; the backfill loop is therefore modelled as a map
over the rows.
-/

/-- Modelled from the spec: the deterministic identifier generator
(Uuid::from_name_and_date, defined in the types module, which is not part
of the migrations file). Per spec section 4.1 it is a pure, stateless
function of (name, timestamp); any injective encoding of the pair models
it faithfully. -/
def Uuid.from_name_and_date (name : String) (date : Nat) : String :=
  name ++ "-" ++ toString date

/-- One row of the Users table: the full column set of source lines 10-24
(user_id PK, email, display_name, optional first/last name, optional
avatar, creation_date, optional credential material, uuid). -/
structure UserRow where
  user_id : String
  email : String
  display_name : String
  first_name : Option String
  last_name : Option String
  avatar : Option (List Nat)
  creation_date : Nat
  password_hash : Option (List Nat)
  totp_secret : Option String
  mfa_type : Option String
  uuid : String
deriving DecidableEq

/-- One row of the Groups table (source lines 26-33): group_id PK,
unique display_name, creation_date, uuid. -/
structure GroupRow where
  group_id : Int
  display_name : String
  creation_date : Nat
  uuid : String
deriving DecidableEq

/-- One row of the Memberships table (source lines 35-40). -/
structure MembershipRow where
  user_id : String
  group_id : Int
deriving DecidableEq

/-- The Users table: its rows plus whether the uuid column exists (the
only Users column the migration probes for, source lines 204-216). -/
structure UsersTable where
  hasUuid : Bool
  rows : List UserRow
deriving DecidableEq

/-- The Groups table: its rows plus whether the creation_date and uuid
columns exist (the two columns the migration probes for, source lines
134-167). -/
structure GroupsTable where
  hasCreationDate : Bool
  hasUuid : Bool
  rows : List GroupRow
deriving DecidableEq

/-- The whole store. A `none` table is absent (not yet created); the
Metadata table is its list of version rows (tiny_integer column,
source lines 307-315). -/
structure DbState where
  users : Option UsersTable
  groups : Option GroupsTable
  memberships : Option (List MembershipRow)
  metadata : Option (List Nat)
deriving DecidableEq

/-- Typed failures of the underlying statement executor. The migration
file only ever distinguishes "some error" from success, so the exact
constructors are free; tableDoesNotExist is the one named by the spec. -/
inductive DbErr where
  | tableDoesNotExist
  | connectionFailure
  | permissionDenied
  | other : String → DbErr
deriving DecidableEq

deriving instance DecidableEq for Except

/-- The SELECT version FROM metadata ... one() call of get_schema_version
(source lines 57-65): an error when the table is absent, otherwise the
first row if any. -/
def selectMetadataVersion (s : DbState) : Except DbErr (Option Nat) :=
  match s.metadata with
  | none => Except.error DbErr.tableDoesNotExist
  | some rows => Except.ok rows.head?

/-- The .ok().flatten() error handling of get_schema_version (source
lines 66-67): every error collapses to none. -/
def okFlattenVersion (r : Except DbErr (Option Nat)) : Option Nat :=
  r.toOption.join

/-- get_schema_version (source lines 56-69). -/
def get_schema_version (s : DbState) : Option Nat :=
  okFlattenVersion (selectMetadataVersion s)

/-- The Users table as created by upgrade_to_v1 when absent (source lines
82-109): full column set, hence the uuid column present, no rows. -/
def freshUsersTable : UsersTable := { hasUuid := true, rows := [] }

/-- The Groups table as created by upgrade_to_v1 when absent (source
lines 111-132): creation_date and uuid columns present, no rows. -/
def freshGroupsTable : GroupsTable :=
  { hasCreationDate := true, hasUuid := true, rows := [] }

/-- Source lines 134-150: add the creation_date column to Groups if it is
missing, defaulting every existing row to the current time; if the column
already exists the statement fails and the failure is swallowed. -/
def addGroupCreationDate (t : GroupsTable) (now : Nat) : GroupsTable :=
  if t.hasCreationDate then t
  else { t with hasCreationDate := true,
                rows := t.rows.map (fun r => { r with creation_date := now }) }

/-- The uuid backfill write for one Group row (source lines 186-200):
uuid from (display_name, creation_date). -/
def backfillGroupRow (r : GroupRow) : GroupRow :=
  { r with uuid := Uuid.from_name_and_date r.display_name r.creation_date }

/-- Source lines 152-202: add the uuid column to Groups if missing
(default empty string on existing rows) and, only in that case, backfill
every row from (display_name, creation_date). -/
def addGroupUuid (t : GroupsTable) : GroupsTable :=
  if t.hasUuid then t
  else { t with hasUuid := true,
                rows := (t.rows.map (fun r => { r with uuid := "" })).map
                  backfillGroupRow }

/-- The uuid backfill write for one User row (source lines 235-249):
uuid from (user_id, creation_date). -/
def backfillUserRow (r : UserRow) : UserRow :=
  { r with uuid := Uuid.from_name_and_date r.user_id r.creation_date }

/-- Source lines 204-251: add the uuid column to Users if missing
(default empty string on existing rows) and, only in that case, backfill
every row from (user_id, creation_date). -/
def addUserUuid (t : UsersTable) : UsersTable :=
  if t.hasUuid then t
  else { t with hasUuid := true,
                rows := (t.rows.map (fun r => { r with uuid := "" })).map
                  backfillUserRow }

/-- The rename UPDATE of source lines 296-304 on one row: its WHERE
clause touches exactly the rows whose display_name is "lldap_readonly".
(The guarding query_one of lines 284-294 returns Ok(None) when no such
row exists, so its is_ok() check never blocks the UPDATE; the WHERE
clause alone decides which rows change.) -/
def renameRow (r : GroupRow) : GroupRow :=
  if r.display_name = "lldap_readonly"
  then { r with display_name := "lldap_password_manager" }
  else r

/-- The rename UPDATE of source lines 296-304 over the whole table. -/
def renameReadonly (rows : List GroupRow) : List GroupRow :=
  rows.map renameRow

/-- The Groups-table part of upgrade_to_v1, in source order: add the
creation_date column if missing (lines 134-150), add-and-backfill the
uuid column if missing (lines 152-202), apply the legacy-group rename
(lines 284-305). The intervening statements touch other tables, so the
composition is the step's complete effect on Groups. `now` is the clock
value used as the creation_date column default. -/
def migrateGroupsTable (g : GroupsTable) (now : Nat) : GroupsTable :=
  { addGroupUuid (addGroupCreationDate g now) with
    rows := renameReadonly (addGroupUuid (addGroupCreationDate g now)).rows }

/-- All the writes of upgrade_to_v1 on the whole store: create the tables
that are absent, run the Groups pipeline, backfill Users, insert the
version-1 Metadata row. -/
def upgrade_to_v1_state (s : DbState) (now : Nat) : DbState :=
  { users := some (addUserUuid (s.users.getD freshUsersTable))
    groups := some (migrateGroupsTable (s.groups.getD freshGroupsTable) now)
    memberships := some (s.memberships.getD [])
    metadata := some (s.metadata.getD [] ++ [1]) }

/-- The only fatal (non-recoverable) outcome of upgrade_to_v1: the
assert_eq!/unwrap of source line 327. -/
inductive MigFatal where
  | assertFailed
deriving DecidableEq

/-- upgrade_to_v1 (source lines 71-330): performs the writes, then
asserts that get_schema_version now reports exactly 1; the assertion
failing is a process abort, modelled as the distinguished error. -/
def upgrade_to_v1 (s : DbState) (now : Nat) : Except MigFatal DbState :=
  let s1 := upgrade_to_v1_state s now
  if get_schema_version s1 = some 1 then Except.ok s1
  else Except.error MigFatal.assertFailed

/-- migrate_from_version (source lines 332-340): bails out on a version
strictly above 1, otherwise succeeds; the pool argument is unused, so the
state is returned untouched in every case. -/
def migrate_from_version (s : DbState) (version : Nat) :
    Except String Unit × DbState :=
  (if version > 1 then Except.error "DB version downgrading is not supported"
   else Except.ok (), s)

/-- A brand-new store: no table exists yet. -/
def emptyStore : DbState :=
  { users := none, groups := none, memberships := none, metadata := none }

/-- The store produced by migrating a brand-new store: all four tables,
one Metadata row holding 1, no other rows. -/
def fresh_v1_store : DbState :=
  { users := some freshUsersTable
    groups := some freshGroupsTable
    memberships := some []
    metadata := some [1] }

/-- A store whose Metadata table already holds a row with version 0 and
has no other table. -/
def metadataZeroStore : DbState :=
  { users := none, groups := none, memberships := none, metadata := some [0] }

/-- Drop the uuid column of a User row (for frame statements: two rows
agree on every other column iff their images under this agree). -/
def UserRow.eraseUuid (r : UserRow) : UserRow := { r with uuid := "" }

/-- The spec-level rename on a display name: the legacy name becomes the
current one, every other name is untouched. -/
def legacyRename (name : String) : String :=
  if name = "lldap_readonly" then "lldap_password_manager" else name

/-- A sample user row predating the uuid column. -/
def aliceRow : UserRow :=
  { user_id := "alice", email := "a@b", display_name := "A"
    first_name := none, last_name := none, avatar := none
    creation_date := 5, password_hash := none
    totp_secret := none, mfa_type := none, uuid := "x" }

/-- A sample group row predating the uuid column. -/
def engineeringRow : GroupRow :=
  { group_id := 7, display_name := "engineering", creation_date := 3, uuid := "y" }

/-- A sample group row carrying the legacy well-known name. -/
def readonlyRow : GroupRow :=
  { group_id := 8, display_name := "lldap_readonly", creation_date := 4, uuid := "z" }

/-- A store from a pre-identifier release: Users and Groups exist and hold
one row each, but neither has the uuid column, and Memberships exists
while Metadata does not. -/
def preUuidStore : DbState :=
  { users := some { hasUuid := false, rows := [aliceRow] }
    groups := some { hasCreationDate := true, hasUuid := false
                     rows := [engineeringRow] }
    memberships := some []
    metadata := none }

/-- A store at version 1 holding one group with the legacy well-known
name and no user. -/
def readonlyGroupStore : DbState :=
  { users := some freshUsersTable
    groups := some { hasCreationDate := true, hasUuid := true
                     rows := [readonlyRow] }
    memberships := some []
    metadata := some [1] }

/-! ## Helper lemmas -/

theorem addGroupCreationDate_hasCreationDate (t : GroupsTable) (n : Nat) :
    (addGroupCreationDate t n).hasCreationDate = true := by
  by_cases h : t.hasCreationDate <;> simp [addGroupCreationDate, h]

theorem addGroupCreationDate_of_present (t : GroupsTable) (n : Nat)
    (h : t.hasCreationDate = true) : addGroupCreationDate t n = t := by
  simp [addGroupCreationDate, h]

theorem addGroupUuid_hasUuid (t : GroupsTable) :
    (addGroupUuid t).hasUuid = true := by
  by_cases h : t.hasUuid <;> simp [addGroupUuid, h]

theorem addGroupUuid_hasCreationDate (t : GroupsTable) :
    (addGroupUuid t).hasCreationDate = t.hasCreationDate := by
  by_cases h : t.hasUuid <;> simp [addGroupUuid, h]

theorem addGroupUuid_of_present (t : GroupsTable) (h : t.hasUuid = true) :
    addGroupUuid t = t := by
  simp [addGroupUuid, h]

theorem addUserUuid_hasUuid (t : UsersTable) :
    (addUserUuid t).hasUuid = true := by
  by_cases h : t.hasUuid <;> simp [addUserUuid, h]

theorem addUserUuid_of_present (t : UsersTable) (h : t.hasUuid = true) :
    addUserUuid t = t := by
  simp [addUserUuid, h]

theorem addUserUuid_idem (t : UsersTable) :
    addUserUuid (addUserUuid t) = addUserUuid t :=
  addUserUuid_of_present _ (addUserUuid_hasUuid t)

theorem renameRow_idem (r : GroupRow) : renameRow (renameRow r) = renameRow r := by
  by_cases h : r.display_name = "lldap_readonly" <;> simp [renameRow, h]

theorem renameReadonly_idem (l : List GroupRow) :
    renameReadonly (renameReadonly l) = renameReadonly l := by
  simp only [renameReadonly, List.map_map]
  exact List.map_congr_left (fun a _ => renameRow_idem a)

theorem migrateGroupsTable_hasCreationDate (g : GroupsTable) (n : Nat) :
    (migrateGroupsTable g n).hasCreationDate = true := by
  show (addGroupUuid (addGroupCreationDate g n)).hasCreationDate = true
  rw [addGroupUuid_hasCreationDate]
  exact addGroupCreationDate_hasCreationDate g n

theorem migrateGroupsTable_hasUuid (g : GroupsTable) (n : Nat) :
    (migrateGroupsTable g n).hasUuid = true := by
  show (addGroupUuid (addGroupCreationDate g n)).hasUuid = true
  exact addGroupUuid_hasUuid _

theorem migrateGroupsTable_rows_rename (g : GroupsTable) (n : Nat) :
    renameReadonly (migrateGroupsTable g n).rows = (migrateGroupsTable g n).rows := by
  show renameReadonly (renameReadonly (addGroupUuid (addGroupCreationDate g n)).rows) =
    renameReadonly (addGroupUuid (addGroupCreationDate g n)).rows
  exact renameReadonly_idem _

theorem migrateGroupsTable_idem (g : GroupsTable) (n1 n2 : Nat) :
    migrateGroupsTable (migrateGroupsTable g n1) n2 = migrateGroupsTable g n1 := by
  have h1 : addGroupCreationDate (migrateGroupsTable g n1) n2 = migrateGroupsTable g n1 :=
    addGroupCreationDate_of_present _ n2 (migrateGroupsTable_hasCreationDate g n1)
  have h2 : addGroupUuid (migrateGroupsTable g n1) = migrateGroupsTable g n1 :=
    addGroupUuid_of_present _ (migrateGroupsTable_hasUuid g n1)
  calc migrateGroupsTable (migrateGroupsTable g n1) n2
      = { addGroupUuid (addGroupCreationDate (migrateGroupsTable g n1) n2) with
          rows := renameReadonly
            (addGroupUuid (addGroupCreationDate (migrateGroupsTable g n1) n2)).rows } := rfl
    _ = { migrateGroupsTable g n1 with
          rows := renameReadonly (migrateGroupsTable g n1).rows } := by rw [h1, h2]
    _ = { migrateGroupsTable g n1 with
          rows := (migrateGroupsTable g n1).rows } := by
            rw [migrateGroupsTable_rows_rename]
    _ = migrateGroupsTable g n1 := rfl

/-! ## Claim theorems -/

/-- C3: for every current version strictly greater than the target 1,
migrate_from_version fails with the distinct downgrade-not-supported
error and performs zero database writes, leaving the store unchanged. -/
theorem C3_downgrade_rejected_no_writes (s : DbState) (version : Nat)
    (h : version > 1) :
    migrate_from_version s version =
      (Except.error "DB version downgrading is not supported", s) := by
  simp [migrate_from_version, h]

/-- C3 witness: at version 2 on the empty store. -/
theorem C3_witness :
    migrate_from_version emptyStore 2 =
      (Except.error "DB version downgrading is not supported", emptyStore) :=
  C3_downgrade_rejected_no_writes emptyStore 2 (by decide)

/-- C5: on a store whose Metadata table is absent or empty,
get_schema_version returns none rather than propagating an error; in the
absent case the underlying select does fail with tableDoesNotExist, and
that failure is mapped to the absent-version result. -/
theorem C5_absent_metadata_gives_none (s : DbState)
    (h : s.metadata = none ∨ s.metadata = some []) :
    get_schema_version s = none ∧
      (s.metadata = none →
        selectMetadataVersion s = Except.error DbErr.tableDoesNotExist) := by
  rcases h with h | h <;>
    simp [get_schema_version, selectMetadataVersion, okFlattenVersion,
      Except.toOption, Option.join, h]

/-- C5 witness: the brand-new store, where the select errors and the
reader still answers none. -/
theorem C5_witness :
    selectMetadataVersion emptyStore = Except.error DbErr.tableDoesNotExist ∧
      get_schema_version emptyStore = none :=
  ⟨(C5_absent_metadata_gives_none emptyStore (Or.inl rfl)).2 rfl,
   (C5_absent_metadata_gives_none emptyStore (Or.inl rfl)).1⟩

/-- C10: the ok-then-flatten error handling of get_schema_version maps
EVERY failing select to none - not only a missing Metadata table but any
error the executor can produce - and never propagates an error value. -/
theorem C10_every_error_maps_to_none (e : DbErr) (s : DbState) :
    okFlattenVersion (Except.error e) = none ∧
      (selectMetadataVersion s = Except.error e →
        get_schema_version s = none) := by
  refine ⟨rfl, fun h => ?_⟩
  simp [get_schema_version, h, okFlattenVersion, Except.toOption]

/-- C10 witness: the table-does-not-exist error on the empty store. -/
theorem C10_witness :
    get_schema_version emptyStore = none :=
  (C10_every_error_maps_to_none DbErr.tableDoesNotExist emptyStore).2 rfl

/-- C7: migrating a brand-new (empty) store succeeds and yields exactly
the four tables Users, Groups, Memberships and Metadata, with Metadata
holding the single version-1 row and no rows in any other table. -/
theorem C7_fresh_store (now : Nat) :
    upgrade_to_v1 emptyStore now = Except.ok fresh_v1_store := rfl

/-- C2 counterexample: on the empty store at current version 0 (below the
target 1), migrate_from_version succeeds yet invokes no migration step:
the store is returned byte-for-byte unchanged and its schema version is
still absent, not 1, contradicting the claim that a successful return
leaves the store at version 1. -/
theorem C2_counterexample :
    (migrate_from_version emptyStore 0).1 = Except.ok () ∧
      (migrate_from_version emptyStore 0).2 = emptyStore ∧
      get_schema_version (migrate_from_version emptyStore 0).2 ≠ some 1 := by
  decide

/-- C2 amended: for every current version at most the target 1,
migrate_from_version returns success while performing zero writes and
without invoking the unversioned-to-1 step; bringing a store to version 1
is not done by this orchestrator. -/
theorem C2_no_step_invoked_below_target (s : DbState) (version : Nat)
    (h : version ≤ 1) :
    migrate_from_version s version = (Except.ok (), s) := by
  have h2 : ¬ version > 1 := by omega
  simp [migrate_from_version, h2]

/-- C2 witness: version 0 on the empty store. -/
theorem C2_witness :
    migrate_from_version emptyStore 0 = (Except.ok (), emptyStore) :=
  C2_no_step_invoked_below_target emptyStore 0 (by decide)

/-- C1 counterexample: on the empty store, one run of upgrade_to_v1
produces the fresh version-1 store, but a second run does not reproduce
it: the unconditional version-row insert appends a second Metadata row,
so the data after two runs differs from the data after one. -/
theorem C1_counterexample :
    upgrade_to_v1 emptyStore 0 = Except.ok fresh_v1_store ∧
      upgrade_to_v1 fresh_v1_store 0 ≠ Except.ok fresh_v1_store := by
  decide

/-- C1 amended: a second run of the migration step leaves the whole store
- schema flags and Users/Groups/Memberships data - exactly as after the
first run, except that the Metadata table receives one additional
version-1 row; consequently the schema version read from the store is
unchanged by the re-run. -/
theorem C1_idempotent_except_metadata_row (s : DbState) (n1 n2 : Nat) :
    upgrade_to_v1_state (upgrade_to_v1_state s n1) n2 =
      { upgrade_to_v1_state s n1 with
        metadata :=
          some ((upgrade_to_v1_state s n1).metadata.getD [] ++ [1]) } ∧
      get_schema_version (upgrade_to_v1_state (upgrade_to_v1_state s n1) n2) =
        get_schema_version (upgrade_to_v1_state s n1) := by
  constructor
  · simp only [upgrade_to_v1_state, Option.getD_some]
    rw [addUserUuid_idem, migrateGroupsTable_idem]
  · simp only [upgrade_to_v1_state, Option.getD_some, get_schema_version,
      selectMetadataVersion, okFlattenVersion, Except.toOption, Option.join]
    cases s.metadata with
    | none => rfl
    | some l => cases l <;> rfl

theorem renameRow_group_id (r : GroupRow) : (renameRow r).group_id = r.group_id := by
  by_cases h : r.display_name = "lldap_readonly" <;> simp [renameRow, h]

theorem renameRow_uuid (r : GroupRow) : (renameRow r).uuid = r.uuid := by
  by_cases h : r.display_name = "lldap_readonly" <;> simp [renameRow, h]

theorem renameRow_display_name (r : GroupRow) :
    (renameRow r).display_name = legacyRename r.display_name := by
  by_cases h : r.display_name = "lldap_readonly" <;>
    simp [renameRow, legacyRename, h]

theorem addGroupCreationDate_display_names (t : GroupsTable) (n : Nat) :
    (addGroupCreationDate t n).rows.map (fun r => r.display_name) =
      t.rows.map (fun r => r.display_name) := by
  by_cases h : t.hasCreationDate <;>
    simp [addGroupCreationDate, h, List.map_map]

theorem addGroupUuid_display_names (t : GroupsTable) :
    (addGroupUuid t).rows.map (fun r => r.display_name) =
      t.rows.map (fun r => r.display_name) := by
  by_cases h : t.hasUuid <;>
    simp [addGroupUuid, h, List.map_map, backfillGroupRow]

theorem renameReadonly_display_names (l : List GroupRow) :
    (renameReadonly l).map (fun r => r.display_name) =
      (l.map (fun r => r.display_name)).map legacyRename := by
  simp only [renameReadonly, List.map_map]
  exact List.map_congr_left (fun r _ => renameRow_display_name r)

/-- C4: when the uuid columns are missing (a store from a pre-identifier
release whose Groups table already has its creation_date column), the
backfill of upgrade_to_v1 gives every pre-existing Group row the
identifier generated from its (display_name, creation_date) and every
pre-existing User row the identifier generated from its
(user_id, creation_date); the generator is a pure function, so the result
is reproducible across replays. -/
theorem C4_backfill_deterministic (s : DbState) (now : Nat)
    (gt : GroupsTable) (ut : UsersTable)
    (hg : s.groups = some gt) (hgc : gt.hasCreationDate = true)
    (hgu : gt.hasUuid = false)
    (hu : s.users = some ut) (huu : ut.hasUuid = false) :
    ∃ gt2 ut2,
      (upgrade_to_v1_state s now).groups = some gt2 ∧
      (upgrade_to_v1_state s now).users = some ut2 ∧
      gt2.rows.map (fun r => (r.group_id, r.uuid)) =
        gt.rows.map (fun r =>
          (r.group_id, Uuid.from_name_and_date r.display_name r.creation_date)) ∧
      ut2.rows.map (fun r => (r.user_id, r.uuid)) =
        ut.rows.map (fun r =>
          (r.user_id, Uuid.from_name_and_date r.user_id r.creation_date)) := by
  refine ⟨migrateGroupsTable gt now, addUserUuid ut,
    by simp [upgrade_to_v1_state, hg], by simp [upgrade_to_v1_state, hu], ?_, ?_⟩
  · show (renameReadonly (addGroupUuid (addGroupCreationDate gt now)).rows).map
        (fun r => (r.group_id, r.uuid)) = _
    rw [addGroupCreationDate_of_present gt now hgc]
    simp only [addGroupUuid, hgu, Bool.false_eq_true, if_false,
      renameReadonly, List.map_map]
    refine List.map_congr_left (fun r _ => ?_)
    simp [Function.comp, backfillGroupRow, renameRow_group_id, renameRow_uuid]
  · simp only [addUserUuid, huu, Bool.false_eq_true, if_false, List.map_map]
    refine List.map_congr_left (fun r _ => ?_)
    simp [Function.comp, backfillUserRow]

/-- C4 witness: one group "engineering" and one user "alice", both
predating the uuid column, get exactly the generated identifiers. -/
theorem C4_witness :
    ∃ gt2 ut2,
      (upgrade_to_v1_state preUuidStore 9).groups = some gt2 ∧
      (upgrade_to_v1_state preUuidStore 9).users = some ut2 ∧
      gt2.rows.map (fun r => (r.group_id, r.uuid)) =
        [engineeringRow].map (fun r =>
          (r.group_id, Uuid.from_name_and_date r.display_name r.creation_date)) ∧
      ut2.rows.map (fun r => (r.user_id, r.uuid)) =
        [aliceRow].map (fun r =>
          (r.user_id, Uuid.from_name_and_date r.user_id r.creation_date)) :=
  C4_backfill_deterministic preUuidStore 9 _ _ rfl rfl rfl rfl rfl

/-- C9: for every pre-existing User row, the backfill of upgrade_to_v1
changes at most the uuid column: erasing the uuid column, the User rows
after the migration are exactly the User rows before it, so user id,
email, display name, names, avatar, creation date and credential material
are all untouched. -/
theorem C9_users_backfill_frame (s : DbState) (now : Nat) (ut : UsersTable)
    (hu : s.users = some ut) :
    ∃ ut2, (upgrade_to_v1_state s now).users = some ut2 ∧
      ut2.rows.map UserRow.eraseUuid = ut.rows.map UserRow.eraseUuid := by
  refine ⟨addUserUuid ut, by simp [upgrade_to_v1_state, hu], ?_⟩
  by_cases h : ut.hasUuid
  · simp [addUserUuid, h]
  · simp only [addUserUuid, h, Bool.false_eq_true, if_false, List.map_map]
    refine List.map_congr_left (fun r _ => ?_)
    simp [Function.comp, backfillUserRow, UserRow.eraseUuid]

/-- C9 witness: the pre-identifier store with the user "alice". -/
theorem C9_witness :
    ∃ ut2, (upgrade_to_v1_state preUuidStore 9).users = some ut2 ∧
      ut2.rows.map UserRow.eraseUuid = [aliceRow].map UserRow.eraseUuid :=
  C9_users_backfill_frame preUuidStore 9 _ rfl

/-- C6: upgrade_to_v1 turns exactly the groups whose display name is the
legacy "lldap_readonly" into "lldap_password_manager" (first conjunct),
and when no group carries the legacy name the display names are unchanged
by the step (second conjunct). -/
theorem C6_legacy_group_rename (s : DbState) (now : Nat) (gt : GroupsTable)
    (hg : s.groups = some gt) :
    ∃ gt2, (upgrade_to_v1_state s now).groups = some gt2 ∧
      gt2.rows.map (fun r => r.display_name) =
        gt.rows.map (fun r => legacyRename r.display_name) ∧
      ((∀ r ∈ gt.rows, r.display_name ≠ "lldap_readonly") →
        gt2.rows.map (fun r => r.display_name) =
          gt.rows.map (fun r => r.display_name)) := by
  have key : (migrateGroupsTable gt now).rows.map (fun r => r.display_name) =
      gt.rows.map (fun r => legacyRename r.display_name) := by
    show (renameReadonly (addGroupUuid (addGroupCreationDate gt now)).rows).map
        (fun r => r.display_name) =
      gt.rows.map (fun r => legacyRename r.display_name)
    rw [renameReadonly_display_names, addGroupUuid_display_names,
      addGroupCreationDate_display_names, List.map_map]
    exact List.map_congr_left (fun r _ => rfl)
  refine ⟨migrateGroupsTable gt now, by simp [upgrade_to_v1_state, hg], key,
    fun hnone => ?_⟩
  rw [key]
  exact List.map_congr_left (fun r hr => by simp [legacyRename, hnone r hr])

/-- C6 witness: a store whose only group is named "lldap_readonly" has it
renamed to "lldap_password_manager" by the step. -/
theorem C6_witness :
    ∃ gt2, (upgrade_to_v1_state readonlyGroupStore 0).groups = some gt2 ∧
      gt2.rows.map (fun r => r.display_name) =
        [readonlyRow].map (fun r => legacyRename r.display_name) ∧
      ((∀ r ∈ [readonlyRow], r.display_name ≠ "lldap_readonly") →
        gt2.rows.map (fun r => r.display_name) =
          [readonlyRow].map (fun r => r.display_name)) :=
  C6_legacy_group_rename readonlyGroupStore 0 _ rfl

/-- C8 counterexample: on a store whose Metadata table already holds a
row with version 0, upgrade_to_v1's insert of the version-1 row succeeds
(the Metadata rows end as 0 then 1), yet the final assertion still fires,
because the version reader returns the first row, 0: the assertion is
reachable even after a successful insert. -/
theorem C8_counterexample :
    (upgrade_to_v1_state metadataZeroStore 0).metadata = some [0, 1] ∧
      upgrade_to_v1 metadataZeroStore 0 = Except.error MigFatal.assertFailed := by
  decide

/-- C8 amended: every successful run of upgrade_to_v1 ends with the
version reader reporting exactly 1; when the post-condition fails the
step ends in the fatal assertion, never in a recoverable error; and the
assertion is unreachable - the run succeeds - whenever the version-1
insert succeeded AND the Metadata table was absent or empty before the
run (a pre-existing row with another version can make it fire). -/
theorem C8_fatal_version_assert (s : DbState) (now : Nat) :
    (∀ s2, upgrade_to_v1 s now = Except.ok s2 → get_schema_version s2 = some 1) ∧
      (upgrade_to_v1 s now = Except.ok (upgrade_to_v1_state s now) ∨
        upgrade_to_v1 s now = Except.error MigFatal.assertFailed) ∧
      ((s.metadata = none ∨ s.metadata = some []) →
        upgrade_to_v1 s now = Except.ok (upgrade_to_v1_state s now)) := by
  refine ⟨?_, ?_, ?_⟩
  · intro s2 h
    by_cases hv : get_schema_version (upgrade_to_v1_state s now) = some 1
    · simp only [upgrade_to_v1, hv, if_true] at h
      cases h
      exact hv
    · simp [upgrade_to_v1, hv] at h
  · by_cases hv : get_schema_version (upgrade_to_v1_state s now) = some 1
    · exact Or.inl (by simp [upgrade_to_v1, hv])
    · exact Or.inr (by simp [upgrade_to_v1, hv])
  · intro hm
    have hv : get_schema_version (upgrade_to_v1_state s now) = some 1 := by
      rcases hm with h | h <;>
        simp [upgrade_to_v1_state, get_schema_version, selectMetadataVersion,
          okFlattenVersion, Except.toOption, Option.join, h]
    simp [upgrade_to_v1, hv]

/-- C8 witness: on the empty store the insert finds an empty Metadata
table and the run succeeds without the assertion firing. -/
theorem C8_witness :
    upgrade_to_v1 emptyStore 3 = Except.ok (upgrade_to_v1_state emptyStore 3) :=
  (C8_fatal_version_assert emptyStore 3).2.2 (Or.inl rfl)
